import Mathlib

/-!
Shallow embedding of the error-handling core of the gosugar library
(errors.go and the validator module), together with theorems settling
the specification claims about it.

Modelling conventions:
* A Go `error` value is represented by its message string; the Go `nil`
  error is `Option.none`.
* An abnormal termination (Go `panic`) is represented by `Except.error`
  carrying the abort payload; normal completion is `Except.ok`.
* The Go zero value of a generic type `T` is represented by `default`
  from an `Inhabited` instance.
* Go string length `len(s)` is the byte length of the UTF-8 encoding,
  i.e. `String.utf8ByteSize` in Lean.
-/

namespace GoSugar

/-- Go `error` values, modelled by their message string. A nil error is
represented as `Option.none` at use sites. -/
abbrev GoError := String

/-- `Must[T any](v T, err error) T` from errors.go: panics with `err`
when it is non-nil, otherwise returns `v`. -/
def Must {T : Type} (v : T) (err : Option GoError) : Except GoError T :=
  match err with
  | some e => .error e
  | none => .ok v

/-- `Check(err error)` from errors.go: panics with `err` when it is
non-nil, otherwise does nothing. -/
def Check (err : Option GoError) : Except GoError Unit :=
  match err with
  | some e => .error e
  | none => .ok ()

/-- `Try[T any](fn func() T) (v T, ok bool)` from errors.go: runs `fn`;
the named results start at their zero values, a normal completion
returns `(fn(), true)`, and the deferred `recover` turns a panic of `fn`
into `ok = false`, leaving `v` at the zero value of `T`. The argument
`fn` is the already-evaluated outcome of the closure: `Except.ok r` for
a normal completion with result `r`, `Except.error e` for a panic. -/
def Try {T : Type} [Inhabited T] (fn : Except GoError T) : T × Bool :=
  match fn with
  | .ok r => (r, true)
  | .error _ => (default, false)

/-- `Or[T any](v T, ok bool, fallback T) T` from errors.go. -/
def Or {T : Type} (v : T) (ok : Bool) (fallback : T) : T :=
  if ok then v else fallback

/-- `type Validator func(string) error` from the validator module:
`none` means the string is valid, `some reason` reports why it is not. -/
def Validator := String → Option GoError

/-- `NotEmpty() Validator` from the validator module. -/
def NotEmpty : Validator := fun s =>
  if s = "" then some "value cannot be empty" else none

/-- `MinLen(n int) Validator` from the validator module; `len(s)` is the
UTF-8 byte length and the Go `int` parameter may be negative, hence `Int`. -/
def MinLen (n : Int) : Validator := fun s =>
  if (s.utf8ByteSize : Int) < n then some ("minimum length is " ++ toString n)
  else none

/-- `MaxLen(n int) Validator` from the validator module. -/
def MaxLen (n : Int) : Validator := fun s =>
  if (s.utf8ByteSize : Int) > n then some ("maximum length is " ++ toString n)
  else none

/-- The validator loop of `Input(prompt string, validators ...Validator)`
from errors.go. Reading and trimming the raw line from stdin is
abstracted by the already-trimmed `input` argument; the loop panics
(modelled as `Except.error`) with the message wrapped as
`"invalid string input: " ++ reason` at the first failing validator and
otherwise returns the input unchanged. -/
def Input (input : String) (validators : List Validator) : Except GoError String :=
  match validators with
  | [] => .ok input
  | validate :: rest =>
    match validate input with
    | some e => .error ("invalid string input: " ++ e)
    | none => Input input rest

/-- Helper for C1: a chain all of whose validators accept the input
returns the input unchanged. -/
lemma Input_ok_of_all_valid (s : String) :
    ∀ validators : List Validator, (∀ v ∈ validators, v s = none) →
      Input s validators = .ok s := by
  intro validators h
  induction validators with
  | nil => rfl
  | cons v rest ih =>
    have hv : v s = none := h v (List.mem_cons_self v rest)
    simp only [Input, hv]
    exact ih fun u hu => h u (List.mem_cons_of_mem v hu)

/-- Helper for C1: the chain stops at the first failing validator,
whatever validators follow it. -/
lemma Input_error_at_first_failure (s : String) (v : Validator) (r : GoError) :
    ∀ front : List Validator, (∀ u ∈ front, u s = none) → v s = some r →
      ∀ rest : List Validator,
        Input s (front ++ v :: rest) = .error ("invalid string input: " ++ r) := by
  intro front
  induction front with
  | nil =>
    intro _ hv rest
    simp only [List.nil_append, Input, hv]
  | cons u front' ih =>
    intro h hv rest
    have hu : u s = none := h u (List.mem_cons_self u front')
    simp only [List.cons_append, Input, hu]
    exact ih (fun w hw => h w (List.mem_cons_of_mem u hw)) hv rest

/-- C1: the `Input` chain evaluates its validators strictly in
declaration order; at the first validator that returns a failure reason
the chain aborts with that reason wrapped as
`"invalid string input: " ++ reason`, regardless of the validators that
follow (so they are never evaluated); if every validator accepts the
(trimmed) input, the chain returns it unchanged. -/
theorem Input_chain_spec (s : String) (validators : List Validator) :
    ((∀ v ∈ validators, v s = none) → Input s validators = .ok s) ∧
    (∀ (front rest : List Validator) (v : Validator) (r : GoError),
      validators = front ++ v :: rest → (∀ u ∈ front, u s = none) →
      v s = some r →
      Input s validators = .error ("invalid string input: " ++ r)) := by
  refine ⟨Input_ok_of_all_valid s validators, ?_⟩
  intro front rest v r hsplit hfront hv
  rw [hsplit]
  exact Input_error_at_first_failure s v r front hfront hv rest

/-- Witness for C1: a passing chain on `"ab"`, and a chain whose second
validator fails while the third would also fail — only the second
validator's reason is surfaced. -/
theorem Input_chain_spec_witness :
    Input "ab" [NotEmpty, MinLen 1] = .ok "ab" ∧
    Input "ab" [NotEmpty, MinLen 5, MaxLen 1] =
      .error "invalid string input: minimum length is 5" := by
  constructor
  · refine (Input_chain_spec "ab" [NotEmpty, MinLen 1]).1 ?_
    intro v hv
    rcases hv with _ | ⟨_, hv⟩
    · decide
    · rcases hv with _ | ⟨_, hv⟩
      · decide
      · cases hv
  · refine (Input_chain_spec "ab" [NotEmpty, MinLen 5, MaxLen 1]).2
      [NotEmpty] [MaxLen 1] (MinLen 5) "minimum length is 5" rfl ?_ (by decide)
    intro u hu
    rcases hu with _ | ⟨_, hu⟩
    · decide
    · cases hu

/-- C2: `Try` returns the closure's result paired with `true` when the
closure completes normally, and the zero value of `T` paired with
`false` when it panics; in particular a `false` flag always comes with
the zero value. -/
theorem Try_spec {T : Type} [Inhabited T] (fn : Except GoError T) :
    (∀ r : T, fn = .ok r → Try fn = (r, true)) ∧
    (∀ e : GoError, fn = .error e → Try fn = ((default : T), false)) ∧
    ((Try fn).2 = false → (Try fn).1 = (default : T)) := by
  cases fn <;> simp [Try]

/-- Witness for C2: a normal completion returning 42 and a panic, at
`T = Nat` whose zero value is 0. -/
theorem Try_spec_witness :
    Try (Except.ok (42 : Nat)) = (42, true) ∧
    Try (Except.error "boom" : Except GoError Nat) = (0, false) :=
  ⟨(Try_spec (Except.ok (42 : Nat))).1 42 rfl,
   (Try_spec (Except.error "boom" : Except GoError Nat)).2.1 "boom" rfl⟩

/-- C3: round-trip of the three wrappers — `Try` of a closure that calls
`Must v e`, fed into `Or` with fallback `d`, yields `v` when `e` is nil
and `d` when `e` is present. -/
theorem Must_Try_Or_roundtrip {T : Type} [Inhabited T] (v d : T) (e : Option GoError) :
    (e = none → Or (Try (Must v e)).1 (Try (Must v e)).2 d = v) ∧
    (∀ msg : GoError, e = some msg → Or (Try (Must v e)).1 (Try (Must v e)).2 d = d) := by
  cases e <;> simp [Must, Try, Or]

/-- Witness for C3: the spec's end-to-end scenario at `T = Nat` — a
successful `Must 7 none` flows through unchanged, a failing
`Must 7 (some e)` is contained by `Try` and defaulted by `Or`. -/
theorem Must_Try_Or_roundtrip_witness :
    Or (Try (Must (7 : Nat) none)).1 (Try (Must (7 : Nat) none)).2 0 = 7 ∧
    Or (Try (Must (7 : Nat) (some "parse failure"))).1
       (Try (Must (7 : Nat) (some "parse failure"))).2 0 = 0 :=
  ⟨(Must_Try_Or_roundtrip 7 0 none).1 rfl,
   (Must_Try_Or_roundtrip 7 0 (some "parse failure")).2 "parse failure" rfl⟩

/-- C4: `Must v e` aborts carrying exactly `e` if and only if `e` is
present, and returns `v` unchanged otherwise; `Check e` aborts carrying
exactly `e` if and only if `e` is present, and is a no-op otherwise. -/
theorem Must_Check_abort_iff {T : Type} (v : T) (e : Option GoError) :
    (∀ msg : GoError, Must v e = .error msg ↔ e = some msg) ∧
    (e = none → Must v e = .ok v) ∧
    (∀ msg : GoError, Check e = .error msg ↔ e = some msg) ∧
    (e = none → Check e = .ok ()) := by
  cases e <;> simp [Must, Check]

/-- Witness for C4: `Must` and `Check` at a present and at an absent
error. -/
theorem Must_Check_abort_iff_witness :
    (Must (5 : Nat) (some "x") = .error "x" ↔ (some "x" : Option GoError) = some "x") ∧
    Must (5 : Nat) none = .ok 5 ∧
    Check none = .ok () :=
  ⟨(Must_Check_abort_iff (5 : Nat) (some "x")).1 "x",
   (Must_Check_abort_iff (5 : Nat) none).2.1 rfl,
   (Must_Check_abort_iff (5 : Nat) none).2.2.2 rfl⟩

/-- C8: `Or` is a pure total selection — it returns the value when the
flag is true and the fallback when it is false, for every value,
fallback and flag; never aborts and never inspects `ok` beyond the
branch. -/
theorem Or_select {T : Type} (v fallback : T) :
    Or v true fallback = v ∧ Or v false fallback = fallback :=
  ⟨rfl, rfl⟩

/-- C5: for `n ≥ 0`, `MinLen n` fails on `s` exactly when the length of
`s` is strictly below `n`, reporting `"minimum length is " ++ toString n`,
and succeeds (returns `none`) otherwise. -/
theorem MinLen_spec (n : Int) (hn : 0 ≤ n) (s : String) :
    (MinLen n s ≠ none ↔ (s.utf8ByteSize : Int) < n) ∧
    ((s.utf8ByteSize : Int) < n →
      MinLen n s = some ("minimum length is " ++ toString n)) ∧
    (n ≤ (s.utf8ByteSize : Int) → MinLen n s = none) := by
  unfold MinLen
  split <;> simp_all <;> omega

/-- Witness for C5: `MinLen 5` at `n = 5 ≥ 0` rejects `"ab"` (length 2)
with the stated reason and accepts `"hello"` (length 5). -/
theorem MinLen_spec_witness :
    MinLen 5 "ab" = some "minimum length is 5" ∧ MinLen 5 "hello" = none :=
  ⟨(MinLen_spec 5 (by decide) "ab").2.1 (by decide),
   (MinLen_spec 5 (by decide) "hello").2.2 (by decide)⟩

/-- C6: for `n ≥ 0`, `MaxLen n` fails on `s` exactly when the length of
`s` is strictly above `n`, reporting `"maximum length is " ++ toString n`,
and succeeds (returns `none`) otherwise. -/
theorem MaxLen_spec (n : Int) (hn : 0 ≤ n) (s : String) :
    (MaxLen n s ≠ none ↔ (s.utf8ByteSize : Int) > n) ∧
    ((s.utf8ByteSize : Int) > n →
      MaxLen n s = some ("maximum length is " ++ toString n)) ∧
    ((s.utf8ByteSize : Int) ≤ n → MaxLen n s = none) := by
  unfold MaxLen
  split <;> simp_all <;> omega

/-- Witness for C6: `MaxLen 3` at `n = 3 ≥ 0` rejects `"hello"`
(length 5) with the stated reason and accepts `"ab"` (length 2). -/
theorem MaxLen_spec_witness :
    MaxLen 3 "hello" = some "maximum length is 3" ∧ MaxLen 3 "ab" = none :=
  ⟨(MaxLen_spec 3 (by decide) "hello").2.1 (by decide),
   (MaxLen_spec 3 (by decide) "ab").2.2 (by decide)⟩

/-- C7: `NotEmpty` fails on the empty string with reason
`"value cannot be empty"` and succeeds on every non-empty string; it is
a pure function of its argument. -/
theorem NotEmpty_spec :
    NotEmpty "" = some "value cannot be empty" ∧
    ∀ s : String, s ≠ "" → NotEmpty s = none := by
  refine ⟨rfl, ?_⟩
  intro s hs
  simp [NotEmpty, hs]

/-- Witness for C7: `NotEmpty` accepts the non-empty string `"a"`. -/
theorem NotEmpty_spec_witness : NotEmpty "a" = none :=
  NotEmpty_spec.2 "a" (by decide)

/-- C9: for every negative `n`, `MinLen n` accepts every string (a
length is never below a negative bound) while `MaxLen n` rejects every
string with reason `"maximum length is " ++ toString n`; neither
constructor rejects a negative `n` — both yield total validators. -/
theorem negative_bound_validators (n : Int) (hn : n < 0) (s : String) :
    MinLen n s = none ∧ MaxLen n s = some ("maximum length is " ++ toString n) := by
  have hlen : (0 : Int) ≤ (s.utf8ByteSize : Int) := Int.natCast_nonneg _
  constructor
  · unfold MinLen
    split <;> [omega; rfl]
  · unfold MaxLen
    split <;> [rfl; omega]

/-- Witness for C9: at `n = -1`, `MinLen` accepts the empty string and
`MaxLen` rejects it with the reason rendered as `"maximum length is -1"`. -/
theorem negative_bound_validators_witness :
    MinLen (-1) "" = none ∧ MaxLen (-1) "" = some "maximum length is -1" :=
  negative_bound_validators (-1) (by decide) ""

/-- C10: `MinLen` and `MaxLen` judge a string by the byte length of its
UTF-8 encoding, not its character count — two strings with the same byte
length are treated identically, and a string of `k` characters encoded
in more than `k` bytes fails `MaxLen k` and passes `MinLen (k+1)`. -/
theorem byte_length_semantics (s : String) (k : Nat)
    (hchars : s.length = k) (hbytes : k < s.utf8ByteSize) :
    (∀ (t : String) (n : Int), t.utf8ByteSize = s.utf8ByteSize →
      MinLen n t = MinLen n s ∧ MaxLen n t = MaxLen n s) ∧
    MaxLen (k : Int) s = some ("maximum length is " ++ toString (k : Int)) ∧
    MinLen ((k : Int) + 1) s = none := by
  refine ⟨?_, ?_, ?_⟩
  · intro t n ht
    unfold MinLen MaxLen
    rw [ht]
    exact ⟨rfl, rfl⟩
  · unfold MaxLen
    split <;> [rfl; omega]
  · unfold MinLen
    split <;> [omega; rfl]

/-- Witness for C10: `"é"` has one character but two UTF-8 bytes, so it
fails `MaxLen 1` and passes `MinLen 2`. -/
theorem byte_length_semantics_witness :
    MaxLen 1 "é" = some "maximum length is 1" ∧ MinLen 2 "é" = none :=
  ⟨(byte_length_semantics "é" 1 (by decide) (by decide)).2.1,
   (byte_length_semantics "é" 1 (by decide) (by decide)).2.2⟩

end GoSugar
